import Mathlib

/-!
Shallow embedding of the `ad936x` transceiver class (`src/ad936x.py`).

Modelling conventions:
* Machine numbers handled by the class (sample rates, attribute values,
  raw samples) are modelled as `Int`.  The Python code compares the
  requested rate against the float literal `521e3`; for integer rates this
  is the same as comparing against `521000`.  Python's floor division
  `//` on ints is `Int.fdiv`; `25000000 // 12` on positive literals is
  plain `Int` division.
* Device interaction (`_get_iio_attr`, `_set_iio_attr`,
  `_set_iio_dev_attr_str`, `_get_iio_dev_attr_str`, `_rx_buffered_data`)
  is modelled by an explicit trace of `Event`s in program order, with the
  values produced by reads supplied by an `Env` record.
* A Python `raise` is modelled as an error value; a function returns the
  trace accumulated up to the raise together with the error.
-/

namespace Ad936x

/-- One interaction with the iio device, in program order.
`readAttr`/`writeAttr` model `_get_iio_attr`/`_set_iio_attr` (and the
`_int`/`_float` variants) on a named channel; `readDevAttr`/`writeDevAttr`
model the device-level string attributes (`_get_iio_dev_attr_str` /
`_set_iio_dev_attr_str`); `readAttrStr`/`writeAttrStr` model the string
channel attributes (`_get_iio_attr_str`/`_set_iio_attr`). -/
inductive Event where
  | readAttr (chan attr : String) (output : Bool)
  | writeAttr (chan attr : String) (output : Bool) (value : Int)
  | readAttrStr (chan attr : String) (output : Bool)
  | writeAttrStr (chan attr : String) (output : Bool) (value : String)
  | readDevAttr (attr : String)
  | writeDevAttr (attr : String) (value : String)
  deriving DecidableEq, Repr

/-- Whether an event is a device write (as opposed to a read). -/
def Event.isWrite : Event → Bool
  | Event.writeAttr _ _ _ _ => true
  | Event.writeAttrStr _ _ _ _ => true
  | Event.writeDevAttr _ _ => true
  | _ => false

/-- Errors the `sample_rate` setter can raise.
`valueError` is the `raise ValueError` for rates below `521e3`
(line 115--118); `parseError` models the `IndexError`/`ValueError` Python
would raise when `tx_path_rates` does not split into the expected
`label:value` tokens (lines 193--194); `zeroDivError` models the
`ZeroDivisionError` when the parsed TX rate is zero (line 195). -/
inductive Err where
  | valueError
  | parseError
  | zeroDivError
  deriving DecidableEq, Repr

/-- The values the device returns for the reads `sample_rate.setter`
performs: the current `sampling_frequency` (line 175), the
`voltage_filter_fir_en` flag (line 177, an int tested for truthiness),
and the `tx_path_rates` device string (line 192). -/
structure Env where
  current_rate : Int
  fir_en : Int
  tx_path_rates : String
  deriving DecidableEq, Repr

/-- The selected filter profile: decimation/interpolation factor `dec`,
coefficient table `fir`, tap count `taps` (lines 122--174). -/
structure Profile where
  dec : Int
  fir : List Int
  taps : Nat
  deriving DecidableEq, Repr

/-- Coefficients for the `rate <= 20000000` bracket (lines 124--136). -/
def firDec4Taps128 : List Int :=
  [
  -15, -27, -23, -6, 17, 33, 31, 9, -23, -47, -45, -13, 34, 69, 67, 21,
  -49, -102, -99, -32, 69, 146, 143, 48, -96, -204, -200, -69, 129, 278,
  275, 97, -170, -372, -371, -135, 222, 494, 497, 187, -288, -654, -665,
  -258, 376, 875, 902, 363, -500, -1201, -1265, -530, 699, 1748, 1906,
  845, -1089, -2922, -3424, -1697, 2326, 7714, 12821, 15921, 15921, 12821,
  7714, 2326, -1697, -3424, -2922, -1089, 845, 1906, 1748, 699, -530,
  -1265, -1201, -500, 363, 902, 875, 376, -258, -665, -654, -288, 187,
  497, 494, 222, -135, -371, -372, -170, 97, 275, 278, 129, -69, -200,
  -204, -96, 48, 143, 146, 69, -32, -99, -102, -49, 21, 67, 69, 34, -13,
  -45, -47, -23, 9, 31, 33, 17, -6, -23, -27, -15
  ]

/-- Coefficients for the `rate <= 40000000` bracket (lines 140--150). -/
def firDec2Taps128 : List Int :=
  [
  -0, 0, 1, -0, -2, 0, 3, -0, -5, 0, 8, -0, -11, 0, 17, -0, -24, 0, 33,
  -0, -45, 0, 61, -0, -80, 0, 104, -0, -134, 0, 169, -0, -213, 0, 264, -0,
  -327, 0, 401, -0, -489, 0, 595, -0, -724, 0, 880, -0, -1075, 0, 1323,
  -0, -1652, 0, 2114, -0, -2819, 0, 4056, -0, -6883, 0, 20837, 32767,
  20837, 0, -6883, -0, 4056, 0, -2819, -0, 2114, 0, -1652, -0, 1323, 0,
  -1075, -0, 880, 0, -724, -0, 595, 0, -489, -0, 401, 0, -327, -0, 264, 0,
  -213, -0, 169, 0, -134, -0, 104, 0, -80, -0, 61, 0, -45, -0, 33, 0, -24,
  -0, 17, 0, -11, -0, 8, 0, -5, -0, 3, 0, -2, -0, 1, 0, -0, 0
  ]

/-- Coefficients for the `rate <= 53333333` bracket (lines 154--162). -/
def firDec2Taps96 : List Int :=
  [
  -4, 0, 8, -0, -14, 0, 23, -0, -36, 0, 52, -0, -75, 0, 104, -0, -140, 0,
  186, -0, -243, 0, 314, -0, -400, 0, 505, -0, -634, 0, 793, -0, -993, 0,
  1247, -0, -1585, 0, 2056, -0, -2773, 0, 4022, -0, -6862, 0, 20830,
  32767, 20830, 0, -6862, -0, 4022, 0, -2773, -0, 2056, 0, -1585, -0,
  1247, 0, -993, -0, 793, 0, -634, -0, 505, 0, -400, -0, 314, 0, -243, -0,
  186, 0, -140, -0, 104, 0, -75, -0, 52, 0, -36, -0, 23, 0, -14, -0, 8, 0,
  -4, 0
  ]

/-- Coefficients for the `rate > 53333333` bracket (lines 166--172). -/
def firDec2Taps64 : List Int :=
  [
  -58, 0, 83, -0, -127, 0, 185, -0, -262, 0, 361, -0, -488, 0, 648, -0,
  -853, 0, 1117, -0, -1466, 0, 1954, -0, -2689, 0, 3960, -0, -6825, 0,
  20818, 32767, 20818, 0, -6825, -0, 3960, 0, -2689, -0, 1954, 0, -1466,
  -0, 1117, 0, -853, -0, 648, 0, -488, -0, 361, 0, -262, -0, 185, 0, -127,
  -0, 83, 0, -58, 0
  ]

/-- The `if rate <= ... elif ...` chain selecting `dec`, `fir`, `taps`
(lines 122--174). -/
def filterProfile (rate : Int) : Profile :=
  if rate ≤ 20000000 then ⟨4, firDec4Taps128, 128⟩
  else if rate ≤ 40000000 then ⟨2, firDec2Taps128, 128⟩
  else if rate ≤ 53333333 then ⟨2, firDec2Taps96, 96⟩
  else ⟨2, firDec2Taps64, 64⟩

/-- The FIR filter config string assembled at lines 182--188:
two header lines, then `for i in range(taps)` one line
`str(fir[i]) + "," + str(fir[i]) + "\n"`, then a final bare newline.
The loop accumulates into the string with repeated `+=`, modelled as a
fold; `fir[i]` is `p.fir.getD i 0` (the index is always in range since
every table has `taps` entries). -/
def firConfigString (p : Profile) : String :=
  (List.range p.taps).foldl
    (fun s i => s ++ toString (p.fir.getD i 0) ++ "," ++ toString (p.fir.getD i 0) ++ "\n")
    ("RX 3 GAIN -6 DEC " ++ toString p.dec ++ "\n" ++
     "TX 3 GAIN 0 INT " ++ toString p.dec ++ "\n")
  ++ "\n"

/-- Python `str.split(sep)` for a one-character separator: splits at
every occurrence of `sep`, keeping empty pieces (so `"".split(" ")` is
`[""]` and `"a  b".split(" ")` is `["a", "", "b"]`). -/
def pySplit (sep : Char) : List Char → List (List Char)
  | [] => [[]]
  | c :: rest =>
    match pySplit sep rest with
    | h :: t => if c = sep then [] :: h :: t else (c :: h) :: t
    | [] => if c = sep then [[], []] else [[c]]

/-- Decimal digit run folded into a number, `none` on a non-digit. -/
def digitsToNat? : List Char → Nat → Option Nat
  | [], acc => some acc
  | c :: rest, acc =>
    if 48 ≤ c.toNat ∧ c.toNat ≤ 57 then
      digitsToNat? rest (acc * 10 + (c.toNat - 48))
    else none

/-- Python `int(str)` on the token strings involved here: an optional
leading minus sign followed by one or more decimal digits. -/
def pyInt? (l : List Char) : Option Int :=
  match l with
  | [] => none
  | c :: rest =>
    if c = '-' then
      if rest = [] then none else (digitsToNat? rest 0).map (fun n => -(n : Int))
    else (digitsToNat? (c :: rest) 0).map (fun n => (n : Int))

/-- Parsing of the `tx_path_rates` device string (lines 193--194):
`readbuf.split(" ")[1].split(":")[1]` as the DAC rate and
`readbuf.split(" ")[5].split(":")[1]` as the TX rate, both through
Python `int(...)`.  A missing token or a non-numeric token (Python
`IndexError`/`ValueError`) is `none`. -/
def parseRates (s : String) : Option (Int × Int) :=
  let toks := pySplit ' ' s.toList
  match toks.get? 1, toks.get? 5 with
  | some tok1, some tok5 =>
    match ((pySplit ':' tok1).get? 1).bind pyInt?,
          ((pySplit ':' tok5).get? 1).bind pyInt? with
    | some dacrate, some txrate => some (dacrate, txrate)
    | _, _ => none
  | _, _ => none

/-- Lines 177--180: if `voltage_filter_fir_en` reads truthy, first (when
the current rate is at most `25000000 // 12`) write the bootstrap
frequency `3000000`, then write `voltage_filter_fir_en := 0`. -/
def disableSeq (env : Env) : List Event :=
  if env.fir_en ≠ 0 then
    (if env.current_rate ≤ 25000000 / 12 then
      [Event.writeAttr "voltage0" "sampling_frequency" false 3000000]
     else []) ++
    [Event.writeAttr "out" "voltage_filter_fir_en" false 0]
  else []

/-- Lines 191--202: the rate-dependent tail after the filter config has
been written.  Narrowband (`rate <= 25000000 // 12`): read
`tx_path_rates`, parse it, compute `max_rate = (dacrate // txrate) * 16`,
write the bootstrap frequency exactly when `max_rate < taps`, then enable
the FIR filter, then commit the rate.  Wideband: commit the rate, then
enable the FIR filter. -/
def commitSeq (env : Env) (rate : Int) (p : Profile) : List Event × Option Err :=
  if rate ≤ 25000000 / 12 then
    match parseRates env.tx_path_rates with
    | none => ([Event.readDevAttr "tx_path_rates"], some Err.parseError)
    | some (dacrate, txrate) =>
      if txrate = 0 then ([Event.readDevAttr "tx_path_rates"], some Err.zeroDivError)
      else
        ([Event.readDevAttr "tx_path_rates"] ++
         (if dacrate.fdiv txrate * 16 < (p.taps : Int) then
            [Event.writeAttr "voltage0" "sampling_frequency" false 3000000]
          else []) ++
         [Event.writeAttr "out" "voltage_filter_fir_en" false 1,
          Event.writeAttr "voltage0" "sampling_frequency" false rate], none)
  else
    ([Event.writeAttr "voltage0" "sampling_frequency" false rate,
      Event.writeAttr "out" "voltage_filter_fir_en" false 1], none)

/-- The `sample_rate` setter (lines 113--202) as a trace transformer:
given the environment of read results and the requested rate, the
sequence of device interactions it performs and the error it raises, if
any.  Rates below `521e3` are rejected before any device interaction;
then the current rate and the FIR-enable flag are read, the
disable sequence runs, the filter config string is written, and the
rate-dependent commit tail runs. -/
def set_sample_rate (env : Env) (rate : Int) : List Event × Option Err :=
  if rate < 521000 then ([], some Err.valueError)
  else
    let p := filterProfile rate
    ([Event.readAttr "voltage0" "sampling_frequency" false,
      Event.readAttr "out" "voltage_filter_fir_en" false] ++
     disableSeq env ++
     [Event.writeDevAttr "filter_fir_config" (firConfigString p)] ++
     (commitSeq env rate p).1,
     (commitSeq env rate p).2)

/-- The receive-side state the class keeps: `self.rx_data`, a list of
complex samples, each modelled as a pair (real, imaginary).
`__init__` initializes it to `[]` (line 248). -/
structure RxState where
  rx_data : List (Int × Int)
  deriving DecidableEq, Repr

/-- The state right after `__init__` (line 248): `self.rx_data = []`. -/
def initRxState : RxState := ⟨[]⟩

/-- Device interaction of `rx_only`: the call to `_rx_buffered_data()`
(line 261). -/
inductive RxEvent where
  | fetch
  deriving DecidableEq, Repr

/-- Errors `rx_only` can raise.  `oddLength` is the
`raise Exception("Complex data must have an even number ...")` at
lines 264--266; `typeErrorLenOfBool` is the `TypeError` Python raises at
line 271, where `len(self.rx_data == 2)` applies `len` to the boolean
result of comparing a list with an int. -/
inductive RxErr where
  | oddLength
  | typeErrorLenOfBool
  deriving DecidableEq, Repr

/-- A Python value that can reach `len` at line 271: either the list held
in `self.rx_data` or the boolean produced by `==`. -/
inductive PyVal where
  | bool (b : Bool)
  | list (xs : List (Int × Int))
  deriving DecidableEq, Repr

/-- Python `xs == n` for a list `xs` and an int `n`: no equality overload
relates the two types, so the comparison evaluates to `False`. -/
def pyEqInt (_xs : List (Int × Int)) (_n : Int) : PyVal := PyVal.bool false

/-- Python `len`: defined on a list, raises `TypeError` on a bool. -/
def pyLen : PyVal → Except RxErr Nat
  | PyVal.bool _ => Except.error RxErr.typeErrorLenOfBool
  | PyVal.list xs => Except.ok xs.length

/-- The list comprehension at line 268:
`[data[i] + 1j * data[i + 1] for i in range(0, len(data), 2)]`,
pairing consecutive elements into complex samples.  (For even-length
input every index is in range, which is the only way this line is
reached.) -/
def assembleComplexSamples : List Int → List (Int × Int)
  | a :: b :: rest => (a, b) :: assembleComplexSamples rest
  | _ => []

/-- `rx_only` (lines 255--274): returns the new object state, the device
interactions performed, and either an error or the returned value.
With `get=True` it returns the stored `self.rx_data` untouched, with no
buffer fetch (lines 258--259).  Otherwise it fetches the raw buffer
(supplied here as `raw`), raises on odd length (lines 263--266), stores
the assembled pairs in `self.rx_data` (line 268), and then evaluates
`if len(self.rx_data == 2)` (line 271): `self.rx_data == 2` is Python
`False`, so `len` raises `TypeError` and the `return` at line 274 is
never reached.  The `Except.ok` arm below transcribes what lines
271--274 would do if `len` succeeded (truthy length keeps only the first
sample). -/
def rx_only (st : RxState) (get : Bool) (raw : List Int) :
    RxState × List RxEvent × Except RxErr (List (Int × Int)) :=
  if get then (st, [], Except.ok st.rx_data)
  else
    let data := raw
    if data.length % 2 ≠ 0 then
      (st, [RxEvent.fetch], Except.error RxErr.oddLength)
    else
      let rx_data := assembleComplexSamples data
      match pyLen (pyEqInt rx_data 2) with
      | Except.error e => (⟨rx_data⟩, [RxEvent.fetch], Except.error e)
      | Except.ok n =>
        let rx_data := if n ≠ 0 then rx_data.take 1 else rx_data
        (⟨rx_data⟩, [RxEvent.fetch], Except.ok rx_data)

/-- The `gain_control_mode` setter (lines 66--68): one string write. -/
def gain_control_mode_set (value : String) : List Event :=
  [Event.writeAttrStr "voltage0" "gain_control_mode" false value]

/-- The `rx_hardwaregain` setter (lines 76--79): it first reads
`self.gain_control_mode` (a device string read, lines 60--64) and writes
the gain only when the mode is `"manual"`.  `mode` is the string the
device returns for that read. -/
def rx_hardwaregain_set (mode : String) (value : Int) : List Event :=
  [Event.readAttrStr "voltage0" "gain_control_mode" false] ++
  (if mode = "manual" then
    [Event.writeAttr "voltage0" "hardwaregain" false value]
   else [])

/-- The `tx_hardwaregain` setter (lines 86--88): one write. -/
def tx_hardwaregain_set (value : Int) : List Event :=
  [Event.writeAttr "voltage0" "hardwaregain" true value]

/-- The `rx_rf_bandwidth` setter (lines 95--97): one write. -/
def rx_rf_bandwidth_set (value : Int) : List Event :=
  [Event.writeAttr "voltage0" "rf_bandwidth" false value]

/-- The `tx_rf_bandwidth` setter (lines 104--106): one write. -/
def tx_rf_bandwidth_set (value : Int) : List Event :=
  [Event.writeAttr "voltage0" "rf_bandwidth" true value]

/-- The `rx_lo` setter (lines 209--211): one write. -/
def rx_lo_set (value : Int) : List Event :=
  [Event.writeAttr "altvoltage0" "frequency" true value]

/-- The `tx_lo` setter (lines 218--220): one write. -/
def tx_lo_set (value : Int) : List Event :=
  [Event.writeAttr "altvoltage1" "frequency" true value]

/-- Specification-side statement of the filter-table bracket rule: the
profile selected for each bracket, and that exactly one bracket applies
to any rate (no gap, no overlap). -/
def filterBracketSpec (r : Int) : Prop :=
  ((r ≤ 20000000 →
      (filterProfile r).dec = 4 ∧ (filterProfile r).taps = 128) ∧
   (20000000 < r ∧ r ≤ 40000000 →
      (filterProfile r).dec = 2 ∧ (filterProfile r).taps = 128) ∧
   (40000000 < r ∧ r ≤ 53333333 →
      (filterProfile r).dec = 2 ∧ (filterProfile r).taps = 96) ∧
   (53333333 < r →
      (filterProfile r).dec = 2 ∧ (filterProfile r).taps = 64)) ∧
  ((r ≤ 20000000 ∨ (20000000 < r ∧ r ≤ 40000000) ∨
      (40000000 < r ∧ r ≤ 53333333) ∨ 53333333 < r) ∧
   ¬(r ≤ 20000000 ∧ 20000000 < r ∧ r ≤ 40000000) ∧
   ¬(r ≤ 20000000 ∧ 40000000 < r ∧ r ≤ 53333333) ∧
   ¬(r ≤ 20000000 ∧ 53333333 < r) ∧
   ¬((20000000 < r ∧ r ≤ 40000000) ∧ 40000000 < r ∧ r ≤ 53333333) ∧
   ¬((20000000 < r ∧ r ≤ 40000000) ∧ 53333333 < r) ∧
   ¬((40000000 < r ∧ r ≤ 53333333) ∧ 53333333 < r))

/-- Specification-side statement of the payload format: the config
string is exactly the header line `RX 3 GAIN -6 DEC <dec>`, the header
line `TX 3 GAIN 0 INT <dec>`, one line `<c>,<c>` per coefficient in
table order (and the table has exactly `taps` entries), and one final
blank line, each line terminated by a newline. -/
def firPayloadSpec (p : Profile) : Prop :=
  p.fir.length = p.taps ∧
  firConfigString p =
    String.join ((("RX 3 GAIN -6 DEC " ++ toString p.dec) ::
                  ("TX 3 GAIN 0 INT " ++ toString p.dec) ::
                  (p.fir.map (fun c => toString c ++ "," ++ toString c) ++ [""])).map
                 (fun l => l ++ "\n"))

/-! Helper lemmas. -/

lemma join_cons (s : String) (l : List String) :
    String.join (s :: l) = s ++ String.join l := by
  apply String.ext
  simp

lemma join_append (l m : List String) :
    String.join (l ++ m) = String.join l ++ String.join m := by
  apply String.ext
  simp

lemma foldl_append_join (g : α → String) (l : List α) (init : String) :
    l.foldl (fun s a => s ++ g a) init = init ++ String.join (l.map g) := by
  induction l generalizing init with
  | nil => apply String.ext; simp [String.join]
  | cons a t ih =>
    rw [List.foldl_cons, ih, List.map_cons, join_cons, String.append_assoc]

lemma range_map_getD (g : Int → String) (l : List Int) :
    (List.range l.length).map (fun i => g (l.getD i 0)) = l.map g := by
  induction l with
  | nil => simp
  | cons a t ih =>
    rw [List.length_cons, List.range_succ_eq_map, List.map_cons, List.map_map]
    simp only [List.getD_cons_zero, Function.comp_def, List.getD_cons_succ]
    rw [ih, List.map_cons]

lemma firPayloadSpec_of_len (p : Profile) (hlen : p.fir.length = p.taps) :
    firPayloadSpec p := by
  refine ⟨hlen, ?_⟩
  unfold firConfigString
  have hfun : (fun (s : String) i =>
        s ++ toString (p.fir.getD i 0) ++ "," ++ toString (p.fir.getD i 0) ++ "\n") =
      (fun (s : String) i =>
        s ++ (toString (p.fir.getD i 0) ++ ("," ++ (toString (p.fir.getD i 0) ++ "\n")))) := by
    funext s i
    simp [String.append_assoc]
  rw [hfun, foldl_append_join, ← hlen,
      range_map_getD (fun x => toString x ++ ("," ++ (toString x ++ "\n"))) p.fir]
  rw [List.map_cons, List.map_cons, join_cons, join_cons, List.map_append, join_append]
  apply String.ext
  simp [String.append_assoc, List.map_map, Function.comp_def]

lemma no_disable_in_commit (env : Env) (rate : Int) (p : Profile) :
    Event.writeAttr "out" "voltage_filter_fir_en" false 0 ∉ (commitSeq env rate p).1 := by
  unfold commitSeq
  split_ifs with hn
  · cases hpr : parseRates env.tx_path_rates with
    | none => simp
    | some dt =>
      obtain ⟨dac, tx⟩ := dt
      by_cases htx : tx = 0
      · simp [htx]
      · simp only [htx, if_false]
        split_ifs <;> simp
  · simp

/-! Claim theorems. -/

/-- C1: the claim says `rx_only` returns exactly `n` complex samples,
pair `i` being `(raw[2*i], raw[2*i+1])`, for any even-length raw buffer
of length `2*n`.  The code does assemble exactly those pairs into
`self.rx_data`, but line 271 then evaluates `len(self.rx_data == 2)`:
the comparison of a list with an int is `False`, and `len(False)` raises
`TypeError`, so for EVERY even-length buffer the call raises instead of
returning the samples.  First conjunct: concrete evaluation at the
failing input `[1, 2, 3, 4]`; second conjunct: the same for every
even-length buffer. -/
theorem rxOnly_even_raises :
    rx_only initRxState false [1, 2, 3, 4] =
      (⟨[(1, 2), (3, 4)]⟩, [RxEvent.fetch], Except.error RxErr.typeErrorLenOfBool) ∧
    ∀ (st : RxState) (raw : List Int), raw.length % 2 = 0 →
      rx_only st false raw =
        (⟨assembleComplexSamples raw⟩, [RxEvent.fetch],
          Except.error RxErr.typeErrorLenOfBool) := by
  constructor
  · rfl
  · intro st raw h
    unfold rx_only
    rw [if_neg (by simp), if_neg (by omega)]
    rfl

/-- Witness for the universal part of the C1 theorem at the concrete
even-length buffer `[1, 2]`. -/
theorem rxOnly_even_raises_witness :
    ([1, 2] : List Int).length % 2 = 0 ∧
    rx_only ⟨[(7, 8)]⟩ false [1, 2] =
      (⟨[(1, 2)]⟩, [RxEvent.fetch], Except.error RxErr.typeErrorLenOfBool) := by
  refine ⟨by decide, ?_⟩
  exact rxOnly_even_raises.2 ⟨[(7, 8)]⟩ [1, 2] (by decide)

/-- C2: for every rate of at least 521,000 the filter table picks
exactly one profile by the bracket rule: at most 20,000,000 gives
decimation 4 with 128 taps; (20,000,000, 40,000,000] gives decimation 2
with 128 taps; (40,000,000, 53,333,333] gives decimation 2 with 96 taps;
above 53,333,333 gives decimation 2 with 64 taps; and the brackets have
no gap and no overlap. -/
theorem filterTable_brackets (r : Int) (h : 521000 ≤ r) : filterBracketSpec r := by
  constructor
  · refine ⟨fun hb => ?_, fun hb => ?_, fun hb => ?_, fun hb => ?_⟩ <;>
      (unfold filterProfile; split_ifs <;> first | exact ⟨rfl, rfl⟩ | (exfalso; omega))
  · omega

/-- Witness for C2 at rate 30,000,000. -/
theorem filterTable_brackets_witness :
    (521000 : Int) ≤ 30000000 ∧ filterBracketSpec 30000000 :=
  ⟨by decide, filterTable_brackets 30000000 (by decide)⟩

/-- C3: every requested rate `r` with `0 < r < 521,000` is rejected with
the `ValueError` (the spec's `InvalidParameter`) and the device trace is
empty: zero attribute reads and zero attribute writes, so device state
is unchanged. -/
theorem setSampleRate_rejects_low (env : Env) (rate : Int)
    (_hpos : 0 < rate) (hlow : rate < 521000) :
    set_sample_rate env rate = ([], some Err.valueError) := by
  unfold set_sample_rate
  rw [if_pos hlow]

/-- Witness for C3 at rate 1000. -/
theorem setSampleRate_rejects_low_witness :
    (0 : Int) < 1000 ∧ (1000 : Int) < 521000 ∧
    set_sample_rate ⟨0, 0, ""⟩ 1000 = ([], some Err.valueError) :=
  ⟨by decide, by decide, setSampleRate_rejects_low ⟨0, 0, ""⟩ 1000 (by decide) (by decide)⟩

/-- C4: for every valid rate, after the filter-configuration write the
setter performs exactly the claimed tail: on the narrowband path
(`rate <= 25000000 // 12`) it reads `tx_path_rates`, and with the parsed
DAC rate `d` and TX rate `t` writes the bootstrap frequency 3,000,000
exactly when `(d // t) * 16` is below the selected profile's tap count,
then enables the FIR filter, then commits the rate; on the wideband path
it commits the rate first and then enables the FIR filter.  The call
raises nothing. -/
theorem commit_order (env : Env) (rate d t : Int) (hrate : 521000 ≤ rate)
    (hparse : parseRates env.tx_path_rates = some (d, t)) (ht : t ≠ 0) :
    (set_sample_rate env rate).2 = none ∧
    ∃ pre,
      (set_sample_rate env rate).1 =
        pre ++
        [Event.writeDevAttr "filter_fir_config" (firConfigString (filterProfile rate))] ++
        (if rate ≤ 25000000 / 12 then
          [Event.readDevAttr "tx_path_rates"] ++
          (if d.fdiv t * 16 < ((filterProfile rate).taps : Int) then
             [Event.writeAttr "voltage0" "sampling_frequency" false 3000000]
           else []) ++
          [Event.writeAttr "out" "voltage_filter_fir_en" false 1,
           Event.writeAttr "voltage0" "sampling_frequency" false rate]
         else
          [Event.writeAttr "voltage0" "sampling_frequency" false rate,
           Event.writeAttr "out" "voltage_filter_fir_en" false 1]) := by
  have hr : ¬ rate < 521000 := by omega
  have hcommit : commitSeq env rate (filterProfile rate) =
      ((if rate ≤ 25000000 / 12 then
          [Event.readDevAttr "tx_path_rates"] ++
          (if d.fdiv t * 16 < ((filterProfile rate).taps : Int) then
             [Event.writeAttr "voltage0" "sampling_frequency" false 3000000]
           else []) ++
          [Event.writeAttr "out" "voltage_filter_fir_en" false 1,
           Event.writeAttr "voltage0" "sampling_frequency" false rate]
         else
          [Event.writeAttr "voltage0" "sampling_frequency" false rate,
           Event.writeAttr "out" "voltage_filter_fir_en" false 1]), none) := by
    unfold commitSeq
    by_cases hn : rate ≤ 25000000 / 12
    · rw [if_pos hn, if_pos hn, hparse]
      simp [ht]
    · rw [if_neg hn, if_neg hn]
  constructor
  · unfold set_sample_rate
    rw [if_neg hr]
    simp only [hcommit]
  · refine ⟨[Event.readAttr "voltage0" "sampling_frequency" false,
             Event.readAttr "out" "voltage_filter_fir_en" false] ++ disableSeq env, ?_⟩
    unfold set_sample_rate
    rw [if_neg hr]
    simp only [hcommit, List.append_assoc]

/-- Witness for C4 on the narrowband path with `d = 7`, `t = 1`. -/
theorem commit_order_witness :
    (521000 : Int) ≤ 1000000 ∧
    parseRates "BBPLL:983040000 DAC:7 T2:61440000 T1:30720000 TF:15360000 TXSAMP:1" =
      some (7, 1) ∧
    ((1 : Int) ≠ 0) ∧
    ((set_sample_rate
        ⟨2000000, 0, "BBPLL:983040000 DAC:7 T2:61440000 T1:30720000 TF:15360000 TXSAMP:1"⟩
        1000000).2 = none ∧
     ∃ pre,
      (set_sample_rate
        ⟨2000000, 0, "BBPLL:983040000 DAC:7 T2:61440000 T1:30720000 TF:15360000 TXSAMP:1"⟩
        1000000).1 =
        pre ++
        [Event.writeDevAttr "filter_fir_config" (firConfigString (filterProfile 1000000))] ++
        (if (1000000 : Int) ≤ 25000000 / 12 then
          [Event.readDevAttr "tx_path_rates"] ++
          (if (7 : Int).fdiv 1 * 16 < ((filterProfile 1000000).taps : Int) then
             [Event.writeAttr "voltage0" "sampling_frequency" false 3000000]
           else []) ++
          [Event.writeAttr "out" "voltage_filter_fir_en" false 1,
           Event.writeAttr "voltage0" "sampling_frequency" false 1000000]
         else
          [Event.writeAttr "voltage0" "sampling_frequency" false 1000000,
           Event.writeAttr "out" "voltage_filter_fir_en" false 1])) :=
  ⟨by decide, by rfl, by decide,
   commit_order
     ⟨2000000, 0, "BBPLL:983040000 DAC:7 T2:61440000 T1:30720000 TF:15360000 TXSAMP:1"⟩
     1000000 7 1 (by decide) (by rfl) (by decide)⟩

/-- C5: in every execution of the setter in which the FIR-enable
attribute reads truthy and the current committed rate is at most
`25000000 // 12`, a FIR-disable write occurs, and every FIR-disable
write in the trace is preceded by a write of the bootstrap frequency
3,000,000: the filter is never disabled at a low committed rate without
the preceding bootstrap write. -/
theorem disable_preceded_by_bootstrap (env : Env) (rate : Int)
    (hrate : 521000 ≤ rate) (hen : env.fir_en ≠ 0)
    (hcur : env.current_rate ≤ 25000000 / 12) :
    (∃ j, ((set_sample_rate env rate).1).get? j =
        some (Event.writeAttr "out" "voltage_filter_fir_en" false 0)) ∧
    (∀ j, ((set_sample_rate env rate).1).get? j =
        some (Event.writeAttr "out" "voltage_filter_fir_en" false 0) →
      ∃ i, i < j ∧ ((set_sample_rate env rate).1).get? i =
        some (Event.writeAttr "voltage0" "sampling_frequency" false 3000000)) := by
  have hr : ¬ rate < 521000 := by omega
  have htrace : (set_sample_rate env rate).1 =
      Event.readAttr "voltage0" "sampling_frequency" false ::
      Event.readAttr "out" "voltage_filter_fir_en" false ::
      Event.writeAttr "voltage0" "sampling_frequency" false 3000000 ::
      Event.writeAttr "out" "voltage_filter_fir_en" false 0 ::
      (Event.writeDevAttr "filter_fir_config" (firConfigString (filterProfile rate)) ::
       (commitSeq env rate (filterProfile rate)).1) := by
    unfold set_sample_rate disableSeq
    rw [if_neg hr, if_pos hen, if_pos hcur]
    rfl
  rw [htrace]
  constructor
  · exact ⟨3, rfl⟩
  · intro j hj
    match j, hj with
    | 0, hj => exact absurd hj (by simp)
    | 1, hj => exact absurd hj (by simp)
    | 2, hj => exact absurd hj (by simp)
    | 3, hj => exact ⟨2, by omega, rfl⟩
    | (n+4), hj =>
      exfalso
      rw [List.get?_cons_succ, List.get?_cons_succ, List.get?_cons_succ,
          List.get?_cons_succ] at hj
      have hmem := List.get?_mem hj
      rcases List.mem_cons.mp hmem with h | h
      · exact absurd h (by simp)
      · exact no_disable_in_commit env rate _ h

/-- Witness for C5: FIR enabled, current rate 2,000,000, requested rate
600,000. -/
theorem disable_preceded_by_bootstrap_witness :
    (521000 : Int) ≤ 600000 ∧
    (Env.mk 2000000 1 "").fir_en ≠ 0 ∧
    (Env.mk 2000000 1 "").current_rate ≤ 25000000 / 12 ∧
    ((∃ j, ((set_sample_rate ⟨2000000, 1, ""⟩ 600000).1).get? j =
        some (Event.writeAttr "out" "voltage_filter_fir_en" false 0)) ∧
     (∀ j, ((set_sample_rate ⟨2000000, 1, ""⟩ 600000).1).get? j =
        some (Event.writeAttr "out" "voltage_filter_fir_en" false 0) →
      ∃ i, i < j ∧ ((set_sample_rate ⟨2000000, 1, ""⟩ 600000).1).get? i =
        some (Event.writeAttr "voltage0" "sampling_frequency" false 3000000))) :=
  ⟨by decide, by decide, by decide,
   disable_preceded_by_bootstrap ⟨2000000, 1, ""⟩ 600000 (by decide) (by decide) (by decide)⟩

/-- C6: for every valid rate, the filter-configuration payload written
to the device consists of the header `RX 3 GAIN -6 DEC <dec>`, the
header `TX 3 GAIN 0 INT <dec>`, exactly `taps` coefficient lines
`<c>,<c>` with identical left and right values in table order, and one
final blank line. -/
theorem firPayload_structure (r : Int) (_h : 521000 ≤ r) :
    firPayloadSpec (filterProfile r) := by
  apply firPayloadSpec_of_len
  unfold filterProfile
  split_ifs <;> rfl

/-- Witness for C6 at rate 10,000,000. -/
theorem firPayload_structure_witness :
    (521000 : Int) ≤ 10000000 ∧ firPayloadSpec (filterProfile 10000000) :=
  ⟨by decide, firPayload_structure 10000000 (by decide)⟩

/-- C7 counterexample: the claimed scenario value 1800 for
`(dacrate // txrate) * 16` is unreachable (the value is always a
multiple of 16); with the `tx_path_rates` string whose DAC/TX ratio
times 16 is closest to 1800 (DAC rate 225, TX rate 2, giving 1792) and
rate 1,000,000 selecting the 128-tap profile, the controller writes NO
bootstrap frequency at all, because 1792 is not below the tap count 128
-- contradicting the claim that the bootstrap write happens in this
scenario. -/
theorem scenario1800_no_bootstrap :
    parseRates "BBPLL:983040000 DAC:225 T2:61440000 T1:30720000 TF:15360000 TXSAMP:2" =
      some (225, 2) ∧
    (225 : Int).fdiv 2 * 16 = 1792 ∧
    (filterProfile 1000000).taps = 128 ∧
    (set_sample_rate
        ⟨2000000, 0, "BBPLL:983040000 DAC:225 T2:61440000 T1:30720000 TF:15360000 TXSAMP:2"⟩
        1000000).2 = none ∧
    Event.writeAttr "voltage0" "sampling_frequency" false 3000000 ∉
      (set_sample_rate
        ⟨2000000, 0, "BBPLL:983040000 DAC:225 T2:61440000 T1:30720000 TF:15360000 TXSAMP:2"⟩
        1000000).1 := by
  refine ⟨rfl, rfl, rfl, rfl, by decide⟩

/-- C7 (amended): at rate 1,000,000 the bootstrap write before enabling
the FIR filter happens exactly when the computed
`(dacrate // txrate) * 16` is below the 128-tap profile's tap count; it
does not happen for the computed value 1792 (the reachable value nearest
the claimed 1800), and for a device string computing 112 (< 128) the
controller writes bootstrap 3,000,000, then enables the filter, then
commits 1,000,000 -- the full trace is exactly as listed. -/
theorem scenario_bootstrap_trace :
    (225 : Int).fdiv 2 * 16 = 1792 ∧ ¬((1792 : Int) < 128) ∧
    (7 : Int).fdiv 1 * 16 = 112 ∧ (112 : Int) < 128 ∧
    set_sample_rate
      ⟨2000000, 0, "BBPLL:983040000 DAC:7 T2:61440000 T1:30720000 TF:15360000 TXSAMP:1"⟩
      1000000 =
    ([Event.readAttr "voltage0" "sampling_frequency" false,
      Event.readAttr "out" "voltage_filter_fir_en" false,
      Event.writeDevAttr "filter_fir_config" (firConfigString (filterProfile 1000000)),
      Event.readDevAttr "tx_path_rates",
      Event.writeAttr "voltage0" "sampling_frequency" false 3000000,
      Event.writeAttr "out" "voltage_filter_fir_en" false 1,
      Event.writeAttr "voltage0" "sampling_frequency" false 1000000], none) := by
  refine ⟨rfl, by decide, rfl, by decide, by rfl⟩

/-- C8: for every odd-length raw buffer, `rx_only` raises the
data-integrity error and produces no partial result: no samples are
returned and the stored `rx_data` is unchanged. -/
theorem rxOnly_odd_rejected (st : RxState) (raw : List Int)
    (h : raw.length % 2 = 1) :
    rx_only st false raw = (st, [RxEvent.fetch], Except.error RxErr.oddLength) := by
  unfold rx_only
  rw [if_neg (by simp), if_pos (by omega)]

/-- Witness for C8 at the odd-length buffer `[1, 2, 3]`. -/
theorem rxOnly_odd_rejected_witness :
    ([1, 2, 3] : List Int).length % 2 = 1 ∧
    rx_only ⟨[(9, 9)]⟩ false [1, 2, 3] =
      (⟨[(9, 9)]⟩, [RxEvent.fetch], Except.error RxErr.oddLength) :=
  ⟨by decide, rxOnly_odd_rejected ⟨[(9, 9)]⟩ [1, 2, 3] (by decide)⟩

/-- C9 counterexample: the claim says setting `rx_hardwaregain` always
writes the value for every current gain-control mode, but in
`slow_attack` mode the setter performs no hardwaregain write at all. -/
theorem rxHardwaregain_no_write_counterexample :
    Event.writeAttr "voltage0" "hardwaregain" false 10 ∉
      rx_hardwaregain_set "slow_attack" 10 := by
  decide

/-- C9 (amended): the gain, bandwidth and LO setters each perform
exactly one pass-through write of the given value, EXCEPT
`rx_hardwaregain`, which writes the value only when the current
gain-control mode reads `"manual"` and performs no write otherwise. -/
theorem accessors_write_behavior (mode : String) (v : Int) :
    ((rx_hardwaregain_set mode v).filter Event.isWrite =
      if mode = "manual" then [Event.writeAttr "voltage0" "hardwaregain" false v]
      else []) ∧
    (mode = "manual" →
      rx_hardwaregain_set mode v =
        [Event.readAttrStr "voltage0" "gain_control_mode" false,
         Event.writeAttr "voltage0" "hardwaregain" false v]) ∧
    (gain_control_mode_set mode).filter Event.isWrite =
      [Event.writeAttrStr "voltage0" "gain_control_mode" false mode] ∧
    (tx_hardwaregain_set v).filter Event.isWrite =
      [Event.writeAttr "voltage0" "hardwaregain" true v] ∧
    (rx_rf_bandwidth_set v).filter Event.isWrite =
      [Event.writeAttr "voltage0" "rf_bandwidth" false v] ∧
    (tx_rf_bandwidth_set v).filter Event.isWrite =
      [Event.writeAttr "voltage0" "rf_bandwidth" true v] ∧
    (rx_lo_set v).filter Event.isWrite =
      [Event.writeAttr "altvoltage0" "frequency" true v] ∧
    (tx_lo_set v).filter Event.isWrite =
      [Event.writeAttr "altvoltage1" "frequency" true v] := by
  refine ⟨?_, fun hm => ?_, rfl, rfl, rfl, rfl, rfl, rfl⟩
  · unfold rx_hardwaregain_set
    split_ifs with hm <;> simp [Event.isWrite, List.filter]
  · unfold rx_hardwaregain_set
    rw [if_pos hm]
    rfl

/-- Witness for C9 in `"manual"` mode with value 3. -/
theorem accessors_write_behavior_witness :
    (rx_hardwaregain_set "manual" 3).filter Event.isWrite =
      [Event.writeAttr "voltage0" "hardwaregain" false 3] ∧
    rx_hardwaregain_set "manual" 3 =
      [Event.readAttrStr "voltage0" "gain_control_mode" false,
       Event.writeAttr "voltage0" "hardwaregain" false 3] := by
  have h := accessors_write_behavior "manual" 3
  exact ⟨by simpa using h.1, h.2.1 rfl⟩

/-- C10: calling `rx_only` with `get=True` returns the stored `rx_data`
with no buffer fetch, no device interaction and no state change, for
every state; and right after construction the stored value is the empty
list. -/
theorem rxOnly_get_is_pure :
    (∀ (st : RxState) (raw : List Int),
      rx_only st true raw = (st, [], Except.ok st.rx_data)) ∧
    initRxState.rx_data = [] :=
  ⟨fun _ _ => rfl, rfl⟩

end Ad936x
